import Mathlib

/-!
Verification of the authentication & session core of the `zergoqrf` restaurant
backend, shallowly embedded in Lean 4.

Python strings are modelled as `List Char` (type alias `Str`).  Python's
`str.strip()` is modelled over the ASCII whitespace characters, `str.lower()`
over the ASCII letters (the repository only ever feeds ASCII patterns into
them), and `re.match` with a pattern ending in `$` is modelled faithfully to
Python semantics: `$` matches at the end of the string or just before a
trailing newline.  `\d` in the OTP pattern is modelled as the ASCII digits.

Fallible Python constructors are modelled as `Option`-returning smart
constructors (`none` = the constructor raised `ValueError`); use cases return
`Except AuthExc β` (`.error` = the use case raised a domain exception), and
asynchronous repository methods are fields of a repository record returning
`Except PyExc α` (`.error` = the awaited call raised).  Use cases that the
claims examine for their repository footprint additionally return the list of
repository calls they performed, in order.
-/

/-- Python `str`, modelled as a list of characters. -/
abbrev Str := List Char

/-- ASCII whitespace, the characters removed by Python `str.strip()`
(space, tab, newline, carriage return, vertical tab, form feed). -/
def pyWs (c : Char) : Bool :=
  decide (c.toNat = 32 ∨ c.toNat = 9 ∨ c.toNat = 10 ∨ c.toNat = 13 ∨
          c.toNat = 11 ∨ c.toNat = 12)

/-- Python `str.strip()`: remove leading and trailing whitespace. -/
def pyStrip (s : Str) : Str :=
  ((s.dropWhile pyWs).reverse.dropWhile pyWs).reverse

/-- Python `str.lower()` on one character (ASCII case mapping, which is
what `toLower` implements for the basic-latin range used here). -/
def pyLowerChar (c : Char) : Char := Char.toLower c

/-- Python `str.lower()`. -/
def pyLower (s : Str) : Str := s.map pyLowerChar

/-- Python truthiness of an optional string (`None` and `""` are falsy):
used for `a or b` defaulting on optional message fields. -/
def pyTruthyStr : Option Str → Bool
  | some (_ :: _) => true
  | _ => false

/-- Python `x or default` for an optional string `x`. -/
def pyOrStr (x : Option Str) (dflt : Str) : Str :=
  match x with
  | some (c :: cs) => c :: cs
  | _ => dflt

/-- Python `needle in hay` substring test. -/
def strContains (needle : Str) : Str → Bool
  | [] => decide (needle = [])
  | c :: t => needle.isPrefixOf (c :: t) || strContains needle t

/-! ### Regex character classes

The regex character classes of `auth_vos.py`, stated numerically over code
points so that the later character-level lemmas are pure arithmetic. -/

/-- The class `[a-zA-Z]`. -/
def isAsciiAlpha (c : Char) : Bool :=
  decide ((65 ≤ c.toNat ∧ c.toNat ≤ 90) ∨ (97 ≤ c.toNat ∧ c.toNat ≤ 122))

/-- The class `[0-9]` (also the model of `\d`). -/
def isAsciiDigit (c : Char) : Bool :=
  decide (48 ≤ c.toNat ∧ c.toNat ≤ 57)

/-- The class `[a-zA-Z0-9._%+-]` (local part of the email pattern). -/
def isEmailLocalChar (c : Char) : Bool :=
  isAsciiAlpha c || isAsciiDigit c ||
  decide (c.toNat = 46 ∨ c.toNat = 95 ∨ c.toNat = 37 ∨ c.toNat = 43 ∨ c.toNat = 45)

/-- The class `[a-zA-Z0-9.-]` (domain part of the email pattern). -/
def isEmailDomainChar (c : Char) : Bool :=
  isAsciiAlpha c || isAsciiDigit c || decide (c.toNat = 46 ∨ c.toNat = 45)

/-! ### The email regex `^[a-zA-Z0-9._%+-]+@[a-zA-Z0-9.-]+\.[a-zA-Z]{2,}$`

`[a-zA-Z0-9.-]+\.[a-zA-Z]{2,}` is decided by splitting at the *last* dot:
because the `[a-zA-Z]{2,}` tail may not contain a dot, a decomposition
`D+ '.' A{2,}` exists iff the split at the last dot has a nonempty all-`D`
prefix and an all-alphabetic suffix of length at least two. -/

/-- Split a string at its last `'.'`: `some (d, a)` with `r = d ++ '.' :: a`
and `a` dot-free, or `none` when `r` has no dot. -/
def lastSplitDot (r : Str) : Option (Str × Str) :=
  match r.reverse.dropWhile (fun c => !(c = '.' : Bool)) with
  | '.' :: drev => some (drev.reverse, (r.reverse.takeWhile (fun c => !(c = '.' : Bool))).reverse)
  | _ => none

/-- The sub-pattern `[a-zA-Z0-9.-]+\.[a-zA-Z]{2,}` matched against all of `r`. -/
def emailDomainTail (r : Str) : Bool :=
  match lastSplitDot r with
  | some (d, a) =>
      decide (d ≠ []) && d.all isEmailDomainChar &&
      decide (2 ≤ a.length) && a.all isAsciiAlpha
  | none => false

/-- The whole email pattern matched against all of `s` (no `$`-newline
allowance yet).  The separating `'@'` is necessarily the first character
failing `isEmailLocalChar`. -/
def emailStrict (s : Str) : Bool :=
  match s.dropWhile isEmailLocalChar with
  | '@' :: rest => decide (s.takeWhile isEmailLocalChar ≠ []) && emailDomainTail rest
  | _ => false

/-- `bool(re.match(pattern, s))` for the email pattern: Python's `$` also
matches just before a single trailing newline. -/
def emailRegexMatch (s : Str) : Bool :=
  emailStrict s ||
  (match s.getLast? with
   | some c => decide (c = '\n') && emailStrict s.dropLast
   | none => false)

/-- `Email` value object: `_value` holds `value.lower().strip()`. -/
structure Email where
  value : Str
deriving DecidableEq, Repr

/-- `Email.__init__`: raises (returns `none`) iff the raw string fails the
regex; otherwise stores the lowercased, stripped input. -/
def Email.mk? (s : Str) : Option Email :=
  if emailRegexMatch s then some ⟨pyStrip (pyLower s)⟩ else none

/-- `Email.local_part`: `self._value.split("@")[0]`. -/
def Email.local_part (e : Email) : Str :=
  e.value.takeWhile (fun c => !(c = '@' : Bool))

/-- `Email.domain`: `self._value.split("@")[1]`, i.e. the segment between the
first `'@'` and the next `'@'` (the stored value has exactly one `'@'`). -/
def Email.domain (e : Email) : Str :=
  ((e.value.dropWhile (fun c => !(c = '@' : Bool))).drop 1).takeWhile (fun c => !(c = '@' : Bool))

/-! ### Phone, Token, SessionToken, OTPCode value objects -/

/-- The phone pattern `^\+[1-9]\d{1,14}$` matched against all of `s`. -/
def phoneStrict (s : Str) : Bool :=
  match s with
  | '+' :: c :: ds =>
      decide (49 ≤ c.toNat ∧ c.toNat ≤ 57) && ds.all isAsciiDigit &&
      decide (1 ≤ ds.length ∧ ds.length ≤ 14)
  | _ => false

/-- `bool(re.match(phone_pattern, s))` with the `$`-newline allowance. -/
def phoneRegexMatch (s : Str) : Bool :=
  phoneStrict s ||
  (match s.getLast? with
   | some c => decide (c = '\n') && phoneStrict s.dropLast
   | none => false)

/-- `Phone` value object: stores `value.strip()`. -/
structure Phone where
  value : Str
deriving DecidableEq, Repr

/-- `Phone.__init__`. -/
def Phone.mk? (s : Str) : Option Phone :=
  if phoneRegexMatch s then some ⟨pyStrip s⟩ else none

/-- `Token` value object: stores `value.strip()` and a lowercased type tag. -/
structure Token where
  value : Str
  token_type : Str
deriving DecidableEq, Repr

/-- `Token.__init__`: raises iff `not value or not value.strip()`. -/
def Token.mk? (s : Str) (token_type : Str) : Option Token :=
  if pyStrip s = [] then none else some ⟨pyStrip s, pyLower token_type⟩

/-- `SessionToken` value object (anonymous sessions): stores `value.strip()`. -/
structure SessionToken where
  value : Str
deriving DecidableEq, Repr

/-- `SessionToken.__init__`: raises iff `not value or not value.strip()`. -/
def SessionToken.mk? (s : Str) : Option SessionToken :=
  if pyStrip s = [] then none else some ⟨pyStrip s⟩

/-- The OTP pattern `^\d{6}$` matched against all of `t`. -/
def otpStrict (t : Str) : Bool :=
  decide (t.length = 6) && t.all isAsciiDigit

/-- `bool(re.match(r'^\d{6}$', t))` with the `$`-newline allowance. -/
def otpRegexMatch (t : Str) : Bool :=
  otpStrict t ||
  (match t.getLast? with
   | some c => decide (c = '\n') && otpStrict t.dropLast
   | none => false)

/-- `OTPCode` value object: validates `otp.strip()` against the pattern and
stores `value.strip()`. -/
structure OTPCode where
  value : Str
deriving DecidableEq, Repr

/-- `OTPCode.__init__`. -/
def OTPCode.mk? (s : Str) : Option OTPCode :=
  if otpRegexMatch (pyStrip s) then some ⟨pyStrip s⟩ else none

/-- `OTPCode.__str__`: the fixed mask, independent of the digits. -/
def OTPCode.str (_ : OTPCode) : Str := ("******").data

/-! ### Domain entities (`auth_entities.py`) and authorization context

`datetime` instants are modelled as integers; `datetime.utcnow()` becomes an
explicit `now` parameter of the operations that read the clock.  Python
`dict` fields holding permission flags are modelled as association lists with
`dict.get(key, False)` as first-match lookup. -/

/-- `dict.get(permission, False)` over an association list of booleans. -/
def permLookup (m : List (Str × Bool)) (p : Str) : Bool :=
  match m.find? (fun kv => kv.1 == p) with
  | some kv => kv.2
  | none => false

/-- The distinguished super-role. -/
def ownerRole : Str := ("owner").data

/-- `User` entity (`auth_entities.py`). -/
structure User where
  user_id : Str
  email : Option Email := none
  phone : Option Phone := none
  name : Option Str := none
  role : Str := ("customer").data
  restaurant_id : Option Str := none
  permissions : List (Str × Bool) := []
  is_active : Bool := true
  is_anonymous : Bool := false
  created_at : Option Int := none
  updated_at : Option Int := none
deriving DecidableEq, Repr

/-- `User.has_role`. -/
def User.has_role (u : User) (required_role : Str) : Bool :=
  u.role == required_role || u.role == ownerRole

/-- `User.has_any_role`. -/
def User.has_any_role (u : User) (allowed_roles : List Str) : Bool :=
  allowed_roles.contains u.role || u.role == ownerRole

/-- `User.has_permission`. -/
def User.has_permission (u : User) (permission : Str) : Bool :=
  if u.role = ownerRole then true else permLookup u.permissions permission

/-- `User.can_access_restaurant`. -/
def User.can_access_restaurant (u : User) (target_restaurant_id : Option Str) : Bool :=
  match target_restaurant_id with
  | none => true
  | some t => decide (u.restaurant_id = some t)

/-- `UserContext` (`supabase_dependencies.py`), the per-request derived
authorization view. -/
structure UserContext where
  user_id : Str
  email : Option Str := none
  phone : Option Str := none
  role : Str := ("customer").data
  restaurant_id : Option Str := none
  permissions : List (Str × Bool) := []
  is_anonymous : Bool := false
deriving DecidableEq, Repr

/-- `UserContext.has_role`. -/
def UserContext.has_role (ctx : UserContext) (required_role : Str) : Bool :=
  ctx.role == required_role || ctx.role == ownerRole

/-- `UserContext.has_any_role`. -/
def UserContext.has_any_role (ctx : UserContext) (roles : List Str) : Bool :=
  roles.contains ctx.role || ctx.role == ownerRole

/-- `UserContext.has_permission`. -/
def UserContext.has_permission (ctx : UserContext) (permission : Str) : Bool :=
  if ctx.role = ownerRole then true else permLookup ctx.permissions permission

/-- `UserContext.can_access_restaurant`. -/
def UserContext.can_access_restaurant (ctx : UserContext) (target_restaurant_id : Option Str) : Bool :=
  match target_restaurant_id with
  | none => true
  | some t => decide (ctx.restaurant_id = some t)

/-- `AuthSession` entity. -/
structure AuthSession where
  session_id : Str
  user_id : Str
  access_token : Token
  refresh_token : Option Token := none
  expires_at : Option Int := none
  is_anonymous : Bool := false
  restaurant_id : Option Str := none
  table_id : Option Str := none
  created_at : Int := 0
deriving DecidableEq, Repr

/-- `AuthSession.is_expired`: `datetime.utcnow() > expires_at`. -/
def AuthSession.is_expired (s : AuthSession) (now : Int) : Bool :=
  match s.expires_at with
  | none => false
  | some t => decide (t < now)

/-- `AuthSession.is_valid`. -/
def AuthSession.is_valid (s : AuthSession) (now : Int) : Bool :=
  !(s.is_expired now)

/-- `AnonymousSession` entity. -/
structure AnonymousSession where
  session_id : Str
  session_token : Str
  restaurant_id : Str
  table_id : Option Str := none
  expires_at : Option Int := none
  created_at : Int := 0
deriving DecidableEq, Repr

/-- `AnonymousSession.is_expired`: `datetime.utcnow() > expires_at`. -/
def AnonymousSession.is_expired (s : AnonymousSession) (now : Int) : Bool :=
  match s.expires_at with
  | none => false
  | some t => decide (t < now)

/-- `AnonymousSession.is_valid`. -/
def AnonymousSession.is_valid (s : AnonymousSession) (now : Int) : Bool :=
  !(s.is_expired now)

/-- `AuthenticationResult` entity. -/
structure AuthenticationResult where
  success : Bool
  user : Option User := none
  session : Option AuthSession := none
  error_message : Option Str := none
  requires_verification : Bool := false
deriving DecidableEq, Repr

/-- `AuthenticationResult.is_successful`. -/
def AuthenticationResult.is_successful (r : AuthenticationResult) : Bool :=
  r.success

/-! ### Exception taxonomy (`auth_exceptions.py`) -/

/-- The domain exceptions, each carrying its message. -/
inductive AuthExc where
  | authenticationError (msg : Str)
  | invalidCredentialsError (msg : Str)
  | userNotFoundError (msg : Str)
  | userAlreadyExistsError (msg : Str)
  | tokenExpiredError (msg : Str)
  | invalidTokenError (msg : Str)
  | insufficientPermissionsError (msg : Str)
  | sessionNotFoundError (msg : Str)
  | sessionExpiredError (msg : Str)
  | accountDeactivatedError (msg : Str)
  | multiTenantViolationError (msg : Str)
  | otpExpiredError (msg : Str)
  | invalidOTPError (msg : Str)
  | invalidEmailFormatError (msg : Str)
  | invalidPhoneFormatError (msg : Str)
  | weakPasswordError (msg : Str)
  | rateLimitExceededError (msg : Str)
deriving DecidableEq, Repr

/-- An exception escaping an awaited repository call: either one of the
domain exceptions or any other `Exception`. -/
inductive PyExc where
  | domain (e : AuthExc)
  | other (msg : Str)
deriving DecidableEq, Repr

/-! ### Application DTOs (`auth_dtos.py`) -/

/-- `EmailSignInRequestDTO`. -/
structure EmailSignInRequestDTO where
  email : Str
  password : Str
deriving DecidableEq, Repr

/-- `EmailSignUpRequestDTO`. -/
structure EmailSignUpRequestDTO where
  email : Str
  password : Str
  name : Option Str := none
  role : Str := ("customer").data
  restaurant_id : Option Str := none
deriving DecidableEq, Repr

/-- `PhoneVerifyRequestDTO`. -/
structure PhoneVerifyRequestDTO where
  phone : Str
  token : Str
  name : Option Str := none
deriving DecidableEq, Repr

/-- `TokenRefreshRequestDTO`. -/
structure TokenRefreshRequestDTO where
  refresh_token : Str
deriving DecidableEq, Repr

/-- `UserDTO`. -/
structure UserDTO where
  id : Str
  email : Option Str := none
  phone : Option Str := none
  name : Option Str := none
  role : Str := ("customer").data
  restaurant_id : Option Str := none
  permissions : List (Str × Bool) := []
  is_active : Bool := true
  is_anonymous : Bool := false
  created_at : Option Int := none
  updated_at : Option Int := none
deriving DecidableEq, Repr

/-- `AuthResponseDTO`. -/
structure AuthResponseDTO where
  access_token : Str
  refresh_token : Str
  token_type : Str := ("bearer").data
  expires_in : Int := 3600
  user : Option UserDTO := none
deriving DecidableEq, Repr

/-- `SignOutResponseDTO`. -/
structure SignOutResponseDTO where
  message : Str := ("Signed out successfully").data
deriving DecidableEq, Repr

/-- `UserContextDTO`. -/
structure UserContextDTO where
  user_id : Str
  email : Option Str := none
  phone : Option Str := none
  role : Str := ("customer").data
  restaurant_id : Option Str := none
  permissions : List (Str × Bool) := []
  is_anonymous : Bool := false
deriving DecidableEq, Repr

/-- `user_entity_to_dto` (`auth_dtos.py`). -/
def user_entity_to_dto (u : User) : UserDTO :=
  { id := u.user_id
    email := u.email.map Email.value
    phone := u.phone.map Phone.value
    name := u.name
    role := u.role
    restaurant_id := u.restaurant_id
    permissions := u.permissions
    is_active := u.is_active
    is_anonymous := u.is_anonymous
    created_at := u.created_at
    updated_at := u.updated_at }

/-! ### Repository contracts (`auth_repos.py`)

Each interface becomes a record of pure functions returning
`Except PyExc α`: `.ok` models a normal return of the awaited call and
`.error` an exception escaping it.  For the use cases whose claims are about
their repository footprint, an inductive call type records each invocation. -/

/-- `IAuthRepository`. -/
structure AuthRepository where
  sign_in_with_email : Email → Str → Except PyExc AuthenticationResult
  sign_up_with_email : Email → Str → Option Str → Str → Option Str → Except PyExc AuthenticationResult
  initiate_phone_auth : Phone → Except PyExc Bool
  verify_phone_otp : Phone → OTPCode → Option Str → Except PyExc AuthenticationResult
  refresh_session : Token → Except PyExc AuthenticationResult
  sign_out : Str → Except PyExc Bool
  get_user_by_id : Str → Except PyExc (Option User)
  get_user_by_email : Email → Except PyExc (Option User)
  get_user_by_phone : Phone → Except PyExc (Option User)
  update_user_metadata : Str → List (Str × Str) → Except PyExc Bool

/-- One invocation of an `IAuthRepository` method. -/
inductive AuthRepoCall where
  | sign_in_with_email (email : Email) (password : Str)
  | sign_up_with_email (email : Email) (password : Str) (name : Option Str)
      (role : Str) (restaurant_id : Option Str)
  | initiate_phone_auth (phone : Phone)
  | verify_phone_otp (phone : Phone) (otp_code : OTPCode) (name : Option Str)
  | refresh_session (refresh_token : Token)
  | sign_out (user_id : Str)
  | get_user_by_id (user_id : Str)
  | get_user_by_email (email : Email)
  | get_user_by_phone (phone : Phone)
  | update_user_metadata (user_id : Str) (metadata : List (Str × Str))
deriving DecidableEq, Repr

/-- `ISessionRepository`. -/
structure SessionRepository where
  create_anonymous_session : Str → Option Str → Int → Except PyExc AnonymousSession
  validate_anonymous_session : SessionToken → Except PyExc Bool
  get_anonymous_session : Str → Except PyExc (Option AnonymousSession)
  invalidate_anonymous_session : Str → Except PyExc Bool
  cleanup_expired_sessions : Unit → Except PyExc Int

/-- One invocation of an `ISessionRepository` method.  The interface has no
operation that mutates a single session in place; the mutating operations
are exactly `create`, `invalidate` and `cleanup`. -/
inductive SessionRepoCall where
  | create_anonymous_session (restaurant_id : Str) (table_id : Option Str) (expires_hours : Int)
  | validate_anonymous_session (session_token : SessionToken)
  | get_anonymous_session (session_id : Str)
  | invalidate_anonymous_session (session_id : Str)
  | cleanup_expired_sessions
deriving DecidableEq, Repr

/-- Does a session-repository call write any session state? -/
def SessionRepoCall.mutates : SessionRepoCall → Bool
  | .create_anonymous_session _ _ _ => true
  | .invalidate_anonymous_session _ => true
  | .cleanup_expired_sessions => true
  | .validate_anonymous_session _ => false
  | .get_anonymous_session _ => false

/-- The heterogeneous user-context dictionary returned by
`extract_user_context`, one optional field per key the use case reads
with `.get`. -/
structure UserContextData where
  user_id : Option Str := none
  email : Option Str := none
  phone : Option Str := none
  role : Option Str := none
  restaurant_id : Option Str := none
  permissions : Option (List (Str × Bool)) := none
  is_anonymous : Option Bool := none
deriving DecidableEq, Repr

/-- `ITokenRepository`.  `validate_token` yields the claims dictionary
(`none` models both `None` and the falsy empty dict, which the truthiness
test of the use case treats identically); `extract_user_context` yields the
user-context dictionary (`none` models its falsy results likewise). -/
structure TokenRepository where
  validate_token : Token → Except PyExc (Option (List (Str × Str)))
  extract_user_context : Token → Except PyExc (Option UserContextData)
  is_token_blacklisted : Token → Except PyExc Bool
  blacklist_token : Token → Except PyExc Bool

/-! ### Use cases

Each `execute` is translated branch by branch from its Python source.  The
`try/except` structure is rendered by a per-use-case handler: the tuple of
domain exception types that the use case re-raises is matched first, and
every other exception becomes the generic `AuthenticationError` of the
`except Exception` clause.  Where the Python success path dereferences
`auth_result.user` / `auth_result.session` that may be `None`, the resulting
`AttributeError` is caught by the same `except Exception` clause; the model
maps those branches to the same generic error.  Use cases whose claims are
about their repository footprint also return their call trace. -/

/-- The `except` clauses of `EmailSignInUseCase.execute`. -/
def emailSignInCatch (e : PyExc) : AuthExc :=
  match e with
  | .domain (.invalidCredentialsError m) => .invalidCredentialsError m
  | .domain (.invalidEmailFormatError m) => .invalidEmailFormatError m
  | .domain (.weakPasswordError m) => .weakPasswordError m
  | _ => .authenticationError ("Authentication failed").data

/-- `EmailSignInUseCase.execute`. -/
def emailSignInExecute (repo : AuthRepository) (request : EmailSignInRequestDTO) :
    Except AuthExc AuthResponseDTO × List AuthRepoCall :=
  match Email.mk? request.email with
  | none =>
      (.error (.invalidEmailFormatError (("Invalid email format: ").data ++ request.email)), [])
  | some email =>
      if request.password.length < 8 then
        (.error (.weakPasswordError ("Password must be at least 8 characters long").data), [])
      else
        match repo.sign_in_with_email email request.password with
        | .error e => (.error (emailSignInCatch e), [.sign_in_with_email email request.password])
        | .ok auth_result =>
            if !auth_result.is_successful then
              (.error (.invalidCredentialsError
                  (pyOrStr auth_result.error_message ("Invalid email or password").data)),
               [.sign_in_with_email email request.password])
            else
              match auth_result.user, auth_result.session with
              | some u, some ses =>
                  (.ok { access_token := ses.access_token.value
                         refresh_token := match ses.refresh_token with
                           | some t => t.value
                           | none => []
                         token_type := ("bearer").data
                         expires_in := 3600
                         user := some (user_entity_to_dto u) },
                   [.sign_in_with_email email request.password])
              | _, _ =>
                  (.error (.authenticationError ("Authentication failed").data),
                   [.sign_in_with_email email request.password])

/-- The `except` clauses of `EmailSignUpUseCase.execute`. -/
def emailSignUpCatch (e : PyExc) : AuthExc :=
  match e with
  | .domain (.userAlreadyExistsError m) => .userAlreadyExistsError m
  | .domain (.invalidEmailFormatError m) => .invalidEmailFormatError m
  | .domain (.weakPasswordError m) => .weakPasswordError m
  | _ => .authenticationError ("Account creation failed").data

/-- `EmailSignUpUseCase.execute`.  On an unsuccessful provider result the
source raises the *base* `AuthenticationError` with the provider's message;
that exception is not in the re-raise tuple (which lists only its
subclasses), so the `except Exception` clause catches it and re-raises
`AuthenticationError("Account creation failed")` — the observable message is
the constant, not the provider's text. -/
def emailSignUpExecute (repo : AuthRepository) (request : EmailSignUpRequestDTO) :
    Except AuthExc AuthResponseDTO × List AuthRepoCall :=
  match Email.mk? request.email with
  | none =>
      (.error (.invalidEmailFormatError (("Invalid email format: ").data ++ request.email)), [])
  | some email =>
      if request.password.length < 8 then
        (.error (.weakPasswordError ("Password must be at least 8 characters long").data), [])
      else
        match repo.get_user_by_email email with
        | .error e => (.error (emailSignUpCatch e), [.get_user_by_email email])
        | .ok (some _) =>
            (.error (.userAlreadyExistsError ("User with this email already exists").data),
             [.get_user_by_email email])
        | .ok none =>
            let calls : List AuthRepoCall :=
              [.get_user_by_email email,
               .sign_up_with_email email request.password request.name request.role
                 request.restaurant_id]
            match repo.sign_up_with_email email request.password request.name request.role
                request.restaurant_id with
            | .error e => (.error (emailSignUpCatch e), calls)
            | .ok auth_result =>
                if !auth_result.is_successful then
                  (.error (.authenticationError ("Account creation failed").data), calls)
                else
                  match auth_result.user with
                  | none =>
                      (.error (.authenticationError ("Account creation failed").data), calls)
                  | some u =>
                      match auth_result.session with
                      | none =>
                          (.ok { access_token := []
                                 refresh_token := []
                                 token_type := ("bearer").data
                                 expires_in := 0
                                 user := some { id := u.user_id
                                                email := u.email.map Email.value
                                                name := request.name
                                                role := request.role
                                                restaurant_id := request.restaurant_id
                                                permissions := []
                                                is_active := false } },
                           calls)
                      | some ses =>
                          (.ok { access_token := ses.access_token.value
                                 refresh_token := match ses.refresh_token with
                                   | some t => t.value
                                   | none => []
                                 token_type := ("bearer").data
                                 expires_in := 3600
                                 user := some (user_entity_to_dto u) },
                           calls)

/-- The `except` clauses of `OTPVerificationUseCase.execute`. -/
def otpVerificationCatch (e : PyExc) : AuthExc :=
  match e with
  | .domain (.invalidPhoneFormatError m) => .invalidPhoneFormatError m
  | .domain (.invalidOTPError m) => .invalidOTPError m
  | .domain (.otpExpiredError m) => .otpExpiredError m
  | _ => .authenticationError ("OTP verification failed").data

/-- `OTPVerificationUseCase.execute`. -/
def otpVerificationExecute (repo : AuthRepository) (request : PhoneVerifyRequestDTO) :
    Except AuthExc AuthResponseDTO × List AuthRepoCall :=
  match Phone.mk? request.phone with
  | none =>
      (.error (.invalidPhoneFormatError (("Invalid phone format: ").data ++ request.phone)), [])
  | some phone =>
      match OTPCode.mk? request.token with
      | none =>
          (.error (.invalidOTPError (("Invalid OTP format: ").data ++ request.token)), [])
      | some otp_code =>
          match repo.verify_phone_otp phone otp_code request.name with
          | .error e =>
              (.error (otpVerificationCatch e), [.verify_phone_otp phone otp_code request.name])
          | .ok auth_result =>
              if !auth_result.is_successful then
                let error_msg := pyOrStr auth_result.error_message ("Invalid or expired OTP").data
                (if strContains ("expired").data (pyLower error_msg) then
                   .error (.otpExpiredError error_msg)
                 else
                   .error (.invalidOTPError error_msg),
                 [.verify_phone_otp phone otp_code request.name])
              else
                match auth_result.user with
                | none =>
                    (.error (.authenticationError ("OTP verification failed").data),
                     [.verify_phone_otp phone otp_code request.name])
                | some u =>
                    let user_dto := user_entity_to_dto u
                    if pyTruthyStr request.name && !(pyTruthyStr u.name) then
                      let calls : List AuthRepoCall :=
                        [.verify_phone_otp phone otp_code request.name,
                         .update_user_metadata u.user_id [(("name").data, request.name.getD [])]]
                      match repo.update_user_metadata u.user_id
                          [(("name").data, request.name.getD [])] with
                      | .error e => (.error (otpVerificationCatch e), calls)
                      | .ok _ =>
                          match auth_result.session with
                          | none =>
                              (.error (.authenticationError ("OTP verification failed").data),
                               calls)
                          | some ses =>
                              (.ok { access_token := ses.access_token.value
                                     refresh_token := match ses.refresh_token with
                                       | some t => t.value
                                       | none => []
                                     token_type := ("bearer").data
                                     expires_in := 3600
                                     user := some { user_dto with name := request.name } },
                               calls)
                    else
                      match auth_result.session with
                      | none =>
                          (.error (.authenticationError ("OTP verification failed").data),
                           [.verify_phone_otp phone otp_code request.name])
                      | some ses =>
                          (.ok { access_token := ses.access_token.value
                                 refresh_token := match ses.refresh_token with
                                   | some t => t.value
                                   | none => []
                                 token_type := ("bearer").data
                                 expires_in := 3600
                                 user := user_dto },
                           [.verify_phone_otp phone otp_code request.name])

/-- The `except` clauses of `TokenRefreshUseCase.execute`. -/
def tokenRefreshCatch (e : PyExc) : AuthExc :=
  match e with
  | .domain (.invalidTokenError m) => .invalidTokenError m
  | .domain (.tokenExpiredError m) => .tokenExpiredError m
  | _ => .authenticationError ("Token refresh failed").data

/-- `TokenRefreshUseCase.execute`.  The `Token` constructor cannot raise once
the emptiness pre-check has passed, so the guarded constructor call always
takes its success branch. -/
def tokenRefreshExecute (repo : AuthRepository) (request : TokenRefreshRequestDTO) :
    Except AuthExc AuthResponseDTO :=
  if pyStrip request.refresh_token = [] then
    .error (.invalidTokenError ("Refresh token is required").data)
  else
    match Token.mk? request.refresh_token ("refresh").data with
    | none => .error (.invalidTokenError ("Invalid refresh token format: Token value cannot be empty").data)
    | some refresh_token =>
        match repo.refresh_session refresh_token with
        | .error e => .error (tokenRefreshCatch e)
        | .ok auth_result =>
            if !auth_result.is_successful then
              let error_msg := pyOrStr auth_result.error_message ("Invalid refresh token").data
              if strContains ("expired").data (pyLower error_msg) then
                .error (.tokenExpiredError error_msg)
              else
                .error (.invalidTokenError error_msg)
            else
              match auth_result.user, auth_result.session with
              | some u, some ses =>
                  .ok { access_token := ses.access_token.value
                        refresh_token := match ses.refresh_token with
                          | some t => t.value
                          | none => []
                        token_type := ("bearer").data
                        expires_in := 3600
                        user := some (user_entity_to_dto u) }
              | _, _ => .error (.authenticationError ("Token refresh failed").data)

/-- `SignOutUseCase.execute`: the whole body is wrapped in
`try/except Exception` and both the normal exit and the handler return the
same success DTO, so the function is total and never propagates an error.
The trace records whether the repository `sign_out` was invoked. -/
def signOutExecute (repo : AuthRepository) (user_context : Option UserContextDTO) :
    SignOutResponseDTO × List AuthRepoCall :=
  match user_context with
  | some ctx =>
      if !ctx.is_anonymous then
        match repo.sign_out ctx.user_id with
        | .ok true => ({ message := ("Signed out successfully").data }, [.sign_out ctx.user_id])
        | .ok false => ({ message := ("Signed out successfully").data }, [.sign_out ctx.user_id])
        | .error _ => ({ message := ("Signed out successfully").data }, [.sign_out ctx.user_id])
      else
        ({ message := ("Signed out successfully").data }, [])
  | none => ({ message := ("Signed out successfully").data }, [])

/-- The `except` clauses of `ValidateTokenUseCase.execute`. -/
def validateTokenCatch (e : PyExc) : AuthExc :=
  match e with
  | .domain (.invalidTokenError m) => .invalidTokenError m
  | .domain (.tokenExpiredError m) => .tokenExpiredError m
  | _ => .authenticationError ("Token validation failed").data

/-- Building the `UserContextDTO` from the user-context dictionary with the
`.get` defaults of `ValidateTokenUseCase.execute`. -/
def buildUserContextDTO (d : UserContextData) : UserContextDTO :=
  { user_id := d.user_id.getD []
    email := d.email
    phone := d.phone
    role := d.role.getD ("customer").data
    restaurant_id := d.restaurant_id
    permissions := d.permissions.getD []
    is_anonymous := d.is_anonymous.getD false }

/-- `ValidateTokenUseCase.execute`.  A blacklisted token *raises*
`InvalidTokenError("Token has been revoked")` (re-raised by the first
`except` clause); only missing/falsy claims or a missing user context
produce the `None` result. -/
def validateTokenExecute (repo : TokenRepository) (token_value : Str) :
    Except AuthExc (Option UserContextDTO) :=
  match Token.mk? token_value ("bearer").data with
  | none =>
      .error (.invalidTokenError ("Invalid token format: Token value cannot be empty").data)
  | some token =>
      match repo.is_token_blacklisted token with
      | .error e => .error (validateTokenCatch e)
      | .ok true => .error (.invalidTokenError ("Token has been revoked").data)
      | .ok false =>
          match repo.validate_token token with
          | .error e => .error (validateTokenCatch e)
          | .ok none => .ok none
          | .ok (some []) => .ok none
          | .ok (some (_ :: _)) =>
              match repo.extract_user_context token with
              | .error e => .error (validateTokenCatch e)
              | .ok none => .ok none
              | .ok (some d) => .ok (some (buildUserContextDTO d))

/-- The `except` clauses of `ExtendAnonymousSessionUseCase.execute`. -/
def extendSessionCatch (e : PyExc) : AuthExc :=
  match e with
  | .domain (.sessionNotFoundError m) => .sessionNotFoundError m
  | .domain (.sessionExpiredError m) => .sessionExpiredError m
  | _ => .authenticationError ("Failed to extend session").data

/-- `ExtendAnonymousSessionUseCase.execute`: fetches the session, raises on
a missing or expired one, and otherwise returns `True` without any further
repository call (the body only logs; it performs no update). -/
def extendAnonymousSessionExecute (repo : SessionRepository) (now : Int)
    (session_id : Str) (_extend_hours : Int := 24) :
    Except AuthExc Bool × List SessionRepoCall :=
  match repo.get_anonymous_session session_id with
  | .error e => (.error (extendSessionCatch e), [.get_anonymous_session session_id])
  | .ok none =>
      (.error (.sessionNotFoundError (("Session not found: ").data ++ session_id)),
       [.get_anonymous_session session_id])
  | .ok (some session) =>
      if session.is_expired now then
        (.error (.sessionExpiredError (("Cannot extend expired session: ").data ++ session_id)),
         [.get_anonymous_session session_id])
      else
        (.ok true, [.get_anonymous_session session_id])

/-! ### Concrete instances used by witnesses and counterexamples -/

/-- A concrete authenticated user. -/
def sampleUser : User :=
  { user_id := ("user-1").data
    email := some ⟨("user@example.com").data⟩
    name := some ("Sam").data }

/-- A concrete issued session. -/
def sampleAuthSession : AuthSession :=
  { session_id := ("as-1").data
    user_id := ("user-1").data
    access_token := ⟨("access-token-value").data, ("bearer").data⟩
    refresh_token := some ⟨("refresh-token-value").data, ("bearer").data⟩
    expires_at := some 3600 }

/-- A successful provider result. -/
def okAuthResult : AuthenticationResult :=
  { success := true, user := some sampleUser, session := some sampleAuthSession }

/-- A failed provider result carrying the given free-text message. -/
def failResult (msg : Str) : AuthenticationResult :=
  { success := false, error_message := some msg }

/-- An `IAuthRepository` stub whose credential operations all yield `res`,
with no pre-existing users. -/
def constAuthRepo (res : AuthenticationResult) : AuthRepository :=
  { sign_in_with_email := fun _ _ => .ok res
    sign_up_with_email := fun _ _ _ _ _ => .ok res
    initiate_phone_auth := fun _ => .ok true
    verify_phone_otp := fun _ _ _ => .ok res
    refresh_session := fun _ => .ok res
    sign_out := fun _ => .ok true
    get_user_by_id := fun _ => .ok none
    get_user_by_email := fun _ => .ok none
    get_user_by_phone := fun _ => .ok none
    update_user_metadata := fun _ _ => .ok true }

/-- An `IAuthRepository` stub whose every method raises. -/
def raisingAuthRepo : AuthRepository :=
  { sign_in_with_email := fun _ _ => .error (.other ("boom").data)
    sign_up_with_email := fun _ _ _ _ _ => .error (.other ("boom").data)
    initiate_phone_auth := fun _ => .error (.other ("boom").data)
    verify_phone_otp := fun _ _ _ => .error (.other ("boom").data)
    refresh_session := fun _ => .error (.other ("boom").data)
    sign_out := fun _ => .error (.other ("boom").data)
    get_user_by_id := fun _ => .error (.other ("boom").data)
    get_user_by_email := fun _ => .error (.other ("boom").data)
    get_user_by_phone := fun _ => .error (.other ("boom").data)
    update_user_metadata := fun _ _ => .error (.other ("boom").data)}

/-- An `ITokenRepository` stub with a fixed blacklist answer, claims
dictionary and user-context dictionary. -/
def constTokenRepo (bl : Bool) (claims : Option (List (Str × Str)))
    (ctx : Option UserContextData) : TokenRepository :=
  { validate_token := fun _ => .ok claims
    extract_user_context := fun _ => .ok ctx
    is_token_blacklisted := fun _ => .ok bl
    blacklist_token := fun _ => .ok true }

/-- An `ISessionRepository` stub returning a fixed lookup answer. -/
def constSessionRepo (s : Option AnonymousSession) : SessionRepository :=
  { create_anonymous_session := fun rid tid _ =>
      .ok { session_id := ("s-new").data, session_token := ("t-new").data
            restaurant_id := rid, table_id := tid, expires_at := some 86400 }
    validate_anonymous_session := fun _ => .ok true
    get_anonymous_session := fun _ => .ok s
    invalidate_anonymous_session := fun _ => .ok true
    cleanup_expired_sessions := fun _ => .ok 0 }

/-- A concrete anonymous session expiring at instant `1000`. -/
def sampleAnonSession : AnonymousSession :=
  { session_id := ("sess-1").data
    session_token := ("tok-1").data
    restaurant_id := ("11111111-1111-1111-1111-111111111111").data
    expires_at := some 1000 }

/-- Concrete sign-in request. -/
def sampleSignInReq : EmailSignInRequestDTO :=
  { email := ("user@example.com").data, password := ("password123").data }

/-- Concrete sign-up request (valid password). -/
def sampleSignUpReq : EmailSignUpRequestDTO :=
  { email := ("user@example.com").data, password := ("password123").data }

/-- Concrete sign-up request with a 7-character password. -/
def weakSignUpReq : EmailSignUpRequestDTO :=
  { email := ("user@example.com").data, password := ("1234567").data }

/-- Concrete OTP verification request. -/
def sampleVerifyReq : PhoneVerifyRequestDTO :=
  { phone := ("+15551234567").data, token := ("123456").data }

/-- Concrete refresh request. -/
def sampleRefreshReq : TokenRefreshRequestDTO :=
  { refresh_token := ("refresh-token-value").data }

/-- A provider failure message containing the substring `"expired"`. -/
def expiredMsg : Str := ("Session expired").data

/-- A provider failure message not containing `"expired"`. -/
def plainFailMsg : Str := ("Bad credentials").data

/-- A context with the distinguished super-role. -/
def ownerCtx : UserContext := { user_id := ("u-owner").data, role := ("owner").data }

/-- A customer context with one granted permission. -/
def customerCtx : UserContext :=
  { user_id := ("u-cust").data, permissions := [(("menu:read").data, true)] }

/-- A user entity with the distinguished super-role. -/
def ownerUser : User := { user_id := ("u-owner").data, role := ("owner").data }

/-- A customer user entity with one granted permission. -/
def customerUser : User :=
  { user_id := ("u-cust").data, permissions := [(("menu:read").data, true)] }

/-- C5: `SignOutUseCase.execute` returns the success DTO for every user
context (absent, anonymous or authenticated) and every repository behaviour,
including a raising or failure-reporting `sign_out`; no exception escapes
the use case. -/
theorem C5_signout_always_success (repo : AuthRepository) (ctx : Option UserContextDTO) :
    (signOutExecute repo ctx).1 = { message := ("Signed out successfully").data } := by
  cases ctx with
  | none => rfl
  | some c =>
    cases hA : c.is_anonymous with
    | true => simp [signOutExecute, hA]
    | false =>
      cases h : repo.sign_out c.user_id with
      | error e => simp [signOutExecute, hA, h]
      | ok b => cases b <;> simp [signOutExecute, hA, h]

/-- C6: `can_access_restaurant target` is true exactly when `target` is
unset or equals the context's own `restaurant_id`, both on the
`UserContext` authorization view and on the `User` entity; the role is not
consulted, so no role grants access to a different restaurant. -/
theorem C6_restaurant_access_iff (ctx : UserContext) (u : User) (target : Option Str) :
    (ctx.can_access_restaurant target = true ↔ target = none ∨ target = ctx.restaurant_id) ∧
    (u.can_access_restaurant target = true ↔ target = none ∨ target = u.restaurant_id) := by
  constructor <;>
    cases target <;>
      simp [UserContext.can_access_restaurant, User.can_access_restaurant, eq_comm]

/-- C7: `has_permission p` is unconditionally true for role `"owner"`, and
otherwise is exactly the permissions-mapping lookup with default `false`,
both on `UserContext` and on the `User` entity. -/
theorem C7_owner_permission_override (ctx : UserContext) (u : User) (p : Str) :
    (ctx.role = ownerRole → ctx.has_permission p = true) ∧
    (ctx.role ≠ ownerRole → ctx.has_permission p = permLookup ctx.permissions p) ∧
    (u.role = ownerRole → u.has_permission p = true) ∧
    (u.role ≠ ownerRole → u.has_permission p = permLookup u.permissions p) := by
  refine ⟨?_, ?_, ?_, ?_⟩ <;> intro h <;>
    simp [UserContext.has_permission, User.has_permission, h]

/-- C7 witness: the owner override and the mapping lookup at the permission
`"menu:edit"`, which is absent from every sample mapping. -/
theorem C7_owner_permission_override_witness :
    ownerCtx.has_permission (("menu:edit").data) = true ∧
    customerCtx.has_permission (("menu:edit").data) =
      permLookup customerCtx.permissions (("menu:edit").data) ∧
    ownerUser.has_permission (("menu:edit").data) = true ∧
    customerUser.has_permission (("menu:edit").data) =
      permLookup customerUser.permissions (("menu:edit").data) :=
  ⟨(C7_owner_permission_override ownerCtx ownerUser (("menu:edit").data)).1 (by decide),
   (C7_owner_permission_override customerCtx ownerUser (("menu:edit").data)).2.1 (by decide),
   (C7_owner_permission_override ownerCtx ownerUser (("menu:edit").data)).2.2.1 (by decide),
   (C7_owner_permission_override ownerCtx customerUser (("menu:edit").data)).2.2.2 (by decide)⟩

/-- C3: extending an existing, unexpired session succeeds with `True`, and
the only repository call performed is the initial lookup — in particular no
writing operation runs and the stored `expires_at` is untouched. -/
theorem C3_extend_valid_session_reads_only (repo : SessionRepository) (now : Int)
    (sid : Str) (hours : Int) (sess : AnonymousSession)
    (hget : repo.get_anonymous_session sid = .ok (some sess))
    (hval : sess.is_expired now = false) :
    extendAnonymousSessionExecute repo now sid hours =
      (.ok true, [.get_anonymous_session sid]) ∧
    ((extendAnonymousSessionExecute repo now sid hours).2.all
      (fun c => !c.mutates)) = true := by
  constructor <;> simp [extendAnonymousSessionExecute, hget, hval, SessionRepoCall.mutates]

/-- C3 witness: a concrete unexpired session (expiry 1000, now 500). -/
theorem C3_extend_valid_session_reads_only_witness :
    (constSessionRepo (some sampleAnonSession)).get_anonymous_session (("sess-1").data) =
      .ok (some sampleAnonSession) ∧
    sampleAnonSession.is_expired 500 = false ∧
    extendAnonymousSessionExecute (constSessionRepo (some sampleAnonSession)) 500
        (("sess-1").data) 24 =
      (.ok true, [.get_anonymous_session (("sess-1").data)]) :=
  ⟨rfl, by decide,
   (C3_extend_valid_session_reads_only (constSessionRepo (some sampleAnonSession)) 500
      (("sess-1").data) 24 sampleAnonSession rfl (by decide)).1⟩

/-- C4: extending a session whose `expires_at` is already past raises
`SessionExpiredError` and performs no repository call beyond the lookup, so
no session state is mutated and no path revives the session. -/
theorem C4_extend_expired_session_raises (repo : SessionRepository) (now : Int)
    (sid : Str) (hours : Int) (sess : AnonymousSession)
    (hget : repo.get_anonymous_session sid = .ok (some sess))
    (hexp : sess.is_expired now = true) :
    extendAnonymousSessionExecute repo now sid hours =
      (.error (.sessionExpiredError (("Cannot extend expired session: ").data ++ sid)),
       [.get_anonymous_session sid]) ∧
    ((extendAnonymousSessionExecute repo now sid hours).2.all
      (fun c => !c.mutates)) = true := by
  constructor <;> simp [extendAnonymousSessionExecute, hget, hexp, SessionRepoCall.mutates]

/-- C4 witness: the concrete session with expiry 1000 at now 2000. -/
theorem C4_extend_expired_session_raises_witness :
    (constSessionRepo (some sampleAnonSession)).get_anonymous_session (("sess-1").data) =
      .ok (some sampleAnonSession) ∧
    sampleAnonSession.is_expired 2000 = true ∧
    extendAnonymousSessionExecute (constSessionRepo (some sampleAnonSession)) 2000
        (("sess-1").data) 24 =
      (.error (.sessionExpiredError
          (("Cannot extend expired session: ").data ++ ("sess-1").data)),
       [.get_anonymous_session (("sess-1").data)]) :=
  ⟨rfl, by decide,
   (C4_extend_expired_session_raises (constSessionRepo (some sampleAnonSession)) 2000
      (("sess-1").data) 24 sampleAnonSession rfl (by decide)).1⟩

theorem pyOrStr_some (msg d : Str) (h : msg ≠ []) : pyOrStr (some msg) d = msg := by
  cases msg with
  | nil => exact absurd rfl h
  | cons c cs => rfl

/-- C1 counterexample -/
theorem C1_blacklisted_raises_counterexample :
    (constTokenRepo true none none).is_token_blacklisted
        ⟨("sometoken").data, ("bearer").data⟩ = .ok true ∧
    validateTokenExecute (constTokenRepo true none none) (("sometoken").data) =
      .error (.invalidTokenError ("Token has been revoked").data) ∧
    validateTokenExecute (constTokenRepo true none none) (("sometoken").data) ≠
      .ok none := by
  refine ⟨rfl, rfl, ?_⟩
  intro h
  exact Except.noConfusion h

/-- C1 amended -/
theorem C1_token_gate (repo : TokenRepository) (s : Str) :
    (pyStrip s = [] →
      validateTokenExecute repo s =
        .error (.invalidTokenError ("Invalid token format: Token value cannot be empty").data)) ∧
    (∀ tok, Token.mk? s ("bearer").data = some tok →
      (repo.is_token_blacklisted tok = .ok true →
        validateTokenExecute repo s =
          .error (.invalidTokenError ("Token has been revoked").data)) ∧
      (repo.is_token_blacklisted tok = .ok false →
        repo.validate_token tok = .ok none →
        validateTokenExecute repo s = .ok none) ∧
      (repo.is_token_blacklisted tok = .ok false →
        repo.validate_token tok = .ok (some []) →
        validateTokenExecute repo s = .ok none) ∧
      (∀ k kv, repo.is_token_blacklisted tok = .ok false →
        repo.validate_token tok = .ok (some (k :: kv)) →
        repo.extract_user_context tok = .ok none →
        validateTokenExecute repo s = .ok none)) := by
  constructor
  · intro h
    simp [validateTokenExecute, Token.mk?, h]
  · intro tok hmk
    refine ⟨?_, ?_, ?_, ?_⟩
    · intro hbl
      simp [validateTokenExecute, hmk, hbl]
    · intro hbl hcl
      simp [validateTokenExecute, hmk, hbl, hcl]
    · intro hbl hcl
      simp [validateTokenExecute, hmk, hbl, hcl]
    · intro k kv hbl hcl hctx
      simp [validateTokenExecute, hmk, hbl, hcl, hctx]

/-- C1 witness -/
theorem C1_token_gate_witness :
    validateTokenExecute (constTokenRepo false none none) (("  ").data) =
      .error (.invalidTokenError ("Invalid token format: Token value cannot be empty").data) ∧
    validateTokenExecute (constTokenRepo true none none) (("tok-abc").data) =
      .error (.invalidTokenError ("Token has been revoked").data) ∧
    validateTokenExecute (constTokenRepo false none none) (("tok-abc").data) = .ok none ∧
    validateTokenExecute (constTokenRepo false (some []) none) (("tok-abc").data) = .ok none ∧
    validateTokenExecute
      (constTokenRepo false (some [((("sub").data : Str), (("u1").data : Str))]) none)
      (("tok-abc").data) = .ok none :=
  ⟨(C1_token_gate (constTokenRepo false none none) (("  ").data)).1 (by decide),
   ((C1_token_gate (constTokenRepo true none none) (("tok-abc").data)).2
      ⟨("tok-abc").data, ("bearer").data⟩ (by decide)).1 rfl,
   ((C1_token_gate (constTokenRepo false none none) (("tok-abc").data)).2
      ⟨("tok-abc").data, ("bearer").data⟩ (by decide)).2.1 rfl rfl,
   ((C1_token_gate (constTokenRepo false (some []) none) (("tok-abc").data)).2
      ⟨("tok-abc").data, ("bearer").data⟩ (by decide)).2.2.1 rfl rfl,
   ((C1_token_gate (constTokenRepo false (some [((("sub").data : Str), (("u1").data : Str))]) none)
      (("tok-abc").data)).2
      ⟨("tok-abc").data, ("bearer").data⟩ (by decide)).2.2.2 (("sub").data, ("u1").data) []
      rfl rfl rfl⟩

/-- C10 -/
theorem C10_weak_password_before_repo (repo : AuthRepository) (req : EmailSignUpRequestDTO)
    (hm : emailRegexMatch req.email = true) (hp : req.password.length < 8) :
    emailSignUpExecute repo req =
      (.error (.weakPasswordError ("Password must be at least 8 characters long").data), []) := by
  simp [emailSignUpExecute, Email.mk?, hm, hp]

/-- C10 witness -/
theorem C10_weak_password_before_repo_witness :
    emailRegexMatch weakSignUpReq.email = true ∧
    weakSignUpReq.password.length = 7 ∧
    emailSignUpExecute (constAuthRepo okAuthResult) weakSignUpReq =
      (.error (.weakPasswordError ("Password must be at least 8 characters long").data), []) :=
  ⟨by decide, by decide,
   C10_weak_password_before_repo (constAuthRepo okAuthResult) weakSignUpReq
     (by decide) (by decide)⟩

/-- C2 counterexample -/
theorem C2_email_signin_expired_counterexample :
    strContains ("expired").data (pyLower expiredMsg) = true ∧
    (emailSignInExecute (constAuthRepo (failResult expiredMsg)) sampleSignInReq).1 =
      .error (.invalidCredentialsError expiredMsg) ∧
    (emailSignInExecute (constAuthRepo (failResult expiredMsg)) sampleSignInReq).1 ≠
      .error (.tokenExpiredError expiredMsg) ∧
    (emailSignInExecute (constAuthRepo (failResult expiredMsg)) sampleSignInReq).1 ≠
      .error (.otpExpiredError expiredMsg) := by
  refine ⟨by decide, rfl, ?_, ?_⟩ <;> intro h <;>
    exact AuthExc.noConfusion (Except.error.inj h)

/-- C2 amended -/
theorem C2_expired_sniffing_scope (repo : AuthRepository) (msg : Str)
    (r : AuthenticationResult) (hr : r.success = false)
    (hm : r.error_message = some msg) (hne : msg ≠ []) :
    (∀ req tok, pyStrip req.refresh_token ≠ [] →
      Token.mk? req.refresh_token ("refresh").data = some tok →
      repo.refresh_session tok = .ok r →
      tokenRefreshExecute repo req =
        .error (if strContains ("expired").data (pyLower msg) then
                  .tokenExpiredError msg else .invalidTokenError msg)) ∧
    (∀ req phone otp, Phone.mk? req.phone = some phone →
      OTPCode.mk? req.token = some otp →
      repo.verify_phone_otp phone otp req.name = .ok r →
      (otpVerificationExecute repo req).1 =
        .error (if strContains ("expired").data (pyLower msg) then
                  .otpExpiredError msg else .invalidOTPError msg)) ∧
    (∀ req email, Email.mk? req.email = some email →
      ¬ req.password.length < 8 →
      repo.sign_in_with_email email req.password = .ok r →
      (emailSignInExecute repo req).1 = .error (.invalidCredentialsError msg)) ∧
    (∀ req email, Email.mk? req.email = some email →
      ¬ req.password.length < 8 →
      repo.get_user_by_email email = .ok none →
      repo.sign_up_with_email email req.password req.name req.role req.restaurant_id = .ok r →
      (emailSignUpExecute repo req).1 =
        .error (.authenticationError ("Account creation failed").data)) := by
  refine ⟨?_, ?_, ?_, ?_⟩
  · intro req tok hnz hmk hcall
    simp [tokenRefreshExecute, hnz, hmk, hcall, AuthenticationResult.is_successful, hr,
          pyOrStr_some _ _ hne, hm]
    split <;> rfl
  · intro req phone otp hph hotp hcall
    simp [otpVerificationExecute, hph, hotp, hcall, AuthenticationResult.is_successful, hr,
          pyOrStr_some _ _ hne, hm]
    split <;> rfl
  · intro req email hmk hpw hcall
    simp [emailSignInExecute, hmk, hpw, hcall, AuthenticationResult.is_successful, hr,
          pyOrStr_some _ _ hne, hm]
  · intro req email hmk hpw hget hcall
    simp [emailSignUpExecute, hmk, hpw, hget, hcall, AuthenticationResult.is_successful, hr]

/-- C2 witness -/
theorem C2_expired_sniffing_scope_witness :
    tokenRefreshExecute (constAuthRepo (failResult expiredMsg)) sampleRefreshReq =
      .error (.tokenExpiredError expiredMsg) ∧
    (otpVerificationExecute (constAuthRepo (failResult plainFailMsg)) sampleVerifyReq).1 =
      .error (.invalidOTPError plainFailMsg) ∧
    (emailSignInExecute (constAuthRepo (failResult expiredMsg)) sampleSignInReq).1 =
      .error (.invalidCredentialsError expiredMsg) ∧
    (emailSignUpExecute (constAuthRepo (failResult expiredMsg)) sampleSignUpReq).1 =
      .error (.authenticationError ("Account creation failed").data) := by
  refine ⟨?_, ?_, ?_, ?_⟩
  · exact (C2_expired_sniffing_scope (constAuthRepo (failResult expiredMsg)) expiredMsg
      (failResult expiredMsg) rfl rfl (by decide)).1 sampleRefreshReq
      ⟨("refresh-token-value").data, ("refresh").data⟩ (by decide) (by decide) rfl
  · exact (C2_expired_sniffing_scope (constAuthRepo (failResult plainFailMsg)) plainFailMsg
      (failResult plainFailMsg) rfl rfl (by decide)).2.1 sampleVerifyReq
      ⟨("+15551234567").data⟩ ⟨("123456").data⟩ (by decide) (by decide) rfl
  · exact (C2_expired_sniffing_scope (constAuthRepo (failResult expiredMsg)) expiredMsg
      (failResult expiredMsg) rfl rfl (by decide)).2.2.1 sampleSignInReq
      ⟨("user@example.com").data⟩ (by decide) (by decide) rfl
  · exact (C2_expired_sniffing_scope (constAuthRepo (failResult expiredMsg)) expiredMsg
      (failResult expiredMsg) rfl rfl (by decide)).2.2.2 sampleSignUpReq
      ⟨("user@example.com").data⟩ (by decide) (by decide) rfl rfl

/-! ### Character- and list-level lemmas for the value-object claims -/

theorem toNat_ofNat_small {n : Nat} (h : n < 55296) : (Char.ofNat n).toNat = n := by
  rw [Char.ofNat, dif_pos (Or.inl h)]
  simp [Char.ofNatAux, Char.toNat, UInt32.toNat]

theorem char_ne_of_toNat_ne {a b : Char} (h : a.toNat ≠ b.toNat) : a ≠ b :=
  fun he => h (by rw [he])

theorem pyLowerChar_toNat (c : Char) :
    (pyLowerChar c).toNat =
      if 65 ≤ c.toNat ∧ c.toNat ≤ 90 then c.toNat + 32 else c.toNat := by
  unfold pyLowerChar Char.toLower
  split
  · next h =>
      rw [if_pos (by exact ⟨h.1, h.2⟩)]
      exact toNat_ofNat_small (by omega)
  · next h => rw [if_neg h]

theorem pyLowerChar_cases (c : Char) :
    (pyLowerChar c).toNat = c.toNat ∨
      (97 ≤ (pyLowerChar c).toNat ∧ (pyLowerChar c).toNat ≤ 122) := by
  have hn := pyLowerChar_toNat c
  split at hn
  · right; omega
  · left; exact hn

theorem lower_local_char {c : Char} (h : isEmailLocalChar c = true) :
    pyWs (pyLowerChar c) = false ∧ pyLowerChar c ≠ '@' := by
  have hc := pyLowerChar_cases c
  have h64 : ('@').toNat = 64 := by decide
  simp only [isEmailLocalChar, isAsciiAlpha, isAsciiDigit, Bool.or_eq_true,
    decide_eq_true_eq] at h
  refine ⟨?_, char_ne_of_toNat_ne ?_⟩
  · simp only [pyWs, decide_eq_false_iff_not]
    omega
  · rw [h64]; omega

theorem lower_alpha_char {c : Char} (h : isAsciiAlpha c = true) :
    pyWs (pyLowerChar c) = false ∧ pyLowerChar c ≠ '@' := by
  have hc := pyLowerChar_cases c
  have h64 : ('@').toNat = 64 := by decide
  simp only [isAsciiAlpha, decide_eq_true_eq] at h
  refine ⟨?_, char_ne_of_toNat_ne ?_⟩
  · simp only [pyWs, decide_eq_false_iff_not]
    omega
  · rw [h64]; omega

theorem lower_domain_char {c : Char} (h : isEmailDomainChar c = true) :
    pyLowerChar c ≠ '@' := by
  have hc := pyLowerChar_cases c
  have h64 : ('@').toNat = 64 := by decide
  simp only [isEmailDomainChar, isAsciiAlpha, isAsciiDigit, Bool.or_eq_true,
    decide_eq_true_eq] at h
  exact char_ne_of_toNat_ne (by rw [h64]; omega)

theorem mem_of_getLast?_eq {l : Str} {c : Char} (h : l.getLast? = some c) : c ∈ l := by
  rw [← List.head?_reverse] at h
  have hm : c ∈ l.reverse := by
    cases hr : l.reverse with
    | nil => rw [hr] at h; cases h
    | cons x t =>
        rw [hr] at h
        have hx : x = c := Option.some.inj h
        subst hx
        exact List.mem_cons_self x t
  exact List.mem_reverse.1 hm

theorem takeWhile_append_all {p : Char → Bool} (u : Str) {x : Char} (v : Str)
    (hu : ∀ c ∈ u, p c = true) (hx : p x = false) :
    (u ++ x :: v).takeWhile p = u ∧ (u ++ x :: v).dropWhile p = x :: v := by
  induction u with
  | nil => simp [List.takeWhile_cons, List.dropWhile_cons, hx]
  | cons a t ih =>
      have ha : p a = true := hu a (by simp)
      have iht := ih (fun c hc => hu c (by simp [hc]))
      simp [List.takeWhile_cons, List.dropWhile_cons, ha, iht.1, iht.2]

theorem takeWhile_eq_self_of_all {p : Char → Bool} {v : Str}
    (hv : ∀ c ∈ v, p c = true) : v.takeWhile p = v := by
  induction v with
  | nil => rfl
  | cons a t ih =>
      simp [List.takeWhile_cons, hv a (by simp), ih (fun c hc => hv c (by simp [hc]))]

theorem dropWhile_eq_self_of_head {p : Char → Bool} {l : Str}
    (h : ∀ c, l.head? = some c → p c = false) : l.dropWhile p = l := by
  cases l with
  | nil => rfl
  | cons a t => simp [List.dropWhile_cons, h a rfl]

theorem pyStrip_eq_self {l : Str} (h1 : ∀ c, l.head? = some c → pyWs c = false)
    (h2 : ∀ c, l.getLast? = some c → pyWs c = false) : pyStrip l = l := by
  unfold pyStrip
  rw [dropWhile_eq_self_of_head h1]
  rw [dropWhile_eq_self_of_head (fun c hc => h2 c (by rwa [List.head?_reverse] at hc))]
  exact List.reverse_reverse l

theorem pyStrip_append_newline {l : Str} (hne : l ≠ [])
    (h1 : ∀ c, l.head? = some c → pyWs c = false)
    (h2 : ∀ c, l.getLast? = some c → pyWs c = false) :
    pyStrip (l ++ ['\n']) = l := by
  unfold pyStrip
  have h3 : (l ++ ['\n']).dropWhile pyWs = l ++ ['\n'] :=
    dropWhile_eq_self_of_head
      (fun c hc => h1 c (by rwa [List.head?_append_of_ne_nil l hne] at hc))
  rw [h3, List.reverse_append]
  simp only [List.reverse_cons, List.reverse_nil, List.nil_append, List.singleton_append]
  rw [List.dropWhile_cons, if_pos (by decide : pyWs '\n' = true)]
  rw [dropWhile_eq_self_of_head (fun c hc => h2 c (by rwa [List.head?_reverse] at hc))]
  exact List.reverse_reverse l

theorem lastSplitDot_some {r d a : Str} (h : lastSplitDot r = some (d, a)) :
    r = d ++ '.' :: a := by
  unfold lastSplitDot at h
  split at h
  · next drev heq =>
      have hda : drev.reverse = d ∧
          (r.reverse.takeWhile (fun c => !(c = '.' : Bool))).reverse = a := by
        have := Option.some.inj h
        exact ⟨congrArg Prod.fst this, congrArg Prod.snd this⟩
      obtain ⟨hd, ha⟩ := hda
      have hsplit := List.takeWhile_append_dropWhile
        (fun c => !(c = '.' : Bool)) r.reverse
      rw [heq] at hsplit
      have : r.reverse.reverse =
          (r.reverse.takeWhile (fun c => !(c = '.' : Bool)) ++ '.' :: drev).reverse := by
        rw [hsplit]
      rw [List.reverse_reverse] at this
      rw [this, List.reverse_append, List.reverse_cons, ← hd, ← ha]
      simp [List.append_assoc]
  · exact absurd h (by simp)

theorem emailStrict_decomp {l : Str} (h : emailStrict l = true) :
    ∃ u d a, l = u ++ '@' :: (d ++ '.' :: a) ∧ u ≠ [] ∧
      (∀ c ∈ u, isEmailLocalChar c = true) ∧ d ≠ [] ∧
      (∀ c ∈ d, isEmailDomainChar c = true) ∧ 2 ≤ a.length ∧
      (∀ c ∈ a, isAsciiAlpha c = true) := by
  unfold emailStrict at h
  split at h
  · next rest heq =>
      simp only [Bool.and_eq_true, decide_eq_true_eq] at h
      obtain ⟨hne, hdt⟩ := h
      unfold emailDomainTail at hdt
      split at hdt
      · next d a heq2 =>
          simp only [Bool.and_eq_true, decide_eq_true_eq, List.all_eq_true] at hdt
          obtain ⟨⟨⟨hd0, hd⟩, ha2⟩, ha⟩ := hdt
          refine ⟨l.takeWhile isEmailLocalChar, d, a, ?_, hne, ?_, hd0, hd, ha2, ha⟩
          · have hsplit := List.takeWhile_append_dropWhile isEmailLocalChar l
            rw [heq, lastSplitDot_some heq2] at hsplit
            exact hsplit.symm
          · exact fun c hc => List.mem_takeWhile_imp hc
      · exact absurd hdt (by simp)
  · exact absurd h (by simp)

theorem getLast?_append_right {Y Z : Str} (hZ : Z ≠ []) :
    (Y ++ Z).getLast? = Z.getLast? := by
  rw [List.getLast?_append]
  cases hz : Z.getLast? with
  | none => exact absurd (List.getLast?_eq_none_iff.1 hz) hZ
  | some z => rfl

theorem pyLower_email_decomp {l : Str} (h : emailStrict l = true) :
    ∃ U V, pyLower l = U ++ '@' :: V ∧ U ≠ [] ∧ ¬('@' ∈ U) ∧ ¬('@' ∈ V) ∧
      (∀ c, (pyLower l).head? = some c → pyWs c = false) ∧
      (∀ c, (pyLower l).getLast? = some c → pyWs c = false) := by
  obtain ⟨u, d, a, hl, hu0, hu, hd0, hd, ha2, ha⟩ := emailStrict_decomp h
  have hAt : pyLowerChar '@' = '@' := by decide
  have hDot : pyLowerChar '.' = '.' := by decide
  have haa : a ≠ [] := by
    intro hn
    rw [hn] at ha2
    simp at ha2
  refine ⟨pyLower u, pyLower (d ++ '.' :: a), ?_, ?_, ?_, ?_, ?_, ?_⟩
  · rw [hl]
    unfold pyLower
    rw [List.map_append]
    simp [hAt]
  · exact fun hnil => hu0 (List.map_eq_nil_iff.1 hnil)
  · intro hmem
    obtain ⟨c, hc, heq⟩ := List.mem_map.1 hmem
    exact (lower_local_char (hu c hc)).2 heq
  · intro hmem
    obtain ⟨c, hc, heq⟩ := List.mem_map.1 hmem
    rcases List.mem_append.1 hc with hcd | hca
    · exact lower_domain_char (hd c hcd) heq
    · rcases List.mem_cons.1 hca with hdot | hca2
      · subst hdot
        rw [hDot] at heq
        exact absurd heq (by decide)
      · exact (lower_alpha_char (ha c hca2)).2 heq
  · intro c hc
    rw [hl] at hc
    cases u with
    | nil => exact absurd rfl hu0
    | cons u0 u1 =>
        simp only [pyLower, List.cons_append, List.map_cons, List.head?_cons] at hc
        have hc0 : pyLowerChar u0 = c := Option.some.inj hc
        subst hc0
        exact (lower_local_char (hu u0 (List.mem_cons_self u0 u1))).1
  · intro c hc
    rw [hl] at hc
    have hre : u ++ '@' :: (d ++ '.' :: a) = (u ++ '@' :: (d ++ ['.'])) ++ a := by
      simp [List.append_assoc]
    rw [hre] at hc
    unfold pyLower at hc
    rw [List.map_append,
        getLast?_append_right (fun hn => haa (List.map_eq_nil_iff.1 hn))] at hc
    have hcm : c ∈ List.map pyLowerChar a := mem_of_getLast?_eq hc
    obtain ⟨c0, hc0, heq⟩ := List.mem_map.1 hcm
    rw [← heq]
    exact (lower_alpha_char (ha c0 hc0)).1

theorem head?_dropWhile_false {p : Char → Bool} {l : Str} {c : Char}
    (h : (l.dropWhile p).head? = some c) : p c = false := by
  induction l with
  | nil => cases h
  | cons a t ih =>
      rw [List.dropWhile_cons] at h
      by_cases hp : p a = true
      · rw [if_pos hp] at h
        exact ih h
      · rw [if_neg hp] at h
        have ha : a = c := Option.some.inj h
        subst ha
        exact Bool.eq_false_iff.2 hp

theorem pyStrip_getLast_not_ws (s : Str) (c : Char)
    (h : (pyStrip s).getLast? = some c) : pyWs c = false := by
  unfold pyStrip at h
  rw [List.getLast?_reverse] at h
  exact head?_dropWhile_false h

theorem email_value_decomp {s : Str} (h : emailRegexMatch s = true) :
    ∃ U V, pyStrip (pyLower s) = U ++ '@' :: V ∧ ¬('@' ∈ U) ∧ ¬('@' ∈ V) := by
  unfold emailRegexMatch at h
  simp only [Bool.or_eq_true] at h
  rcases h with hstrict | hnl
  · obtain ⟨U, V, hLV, _, hUat, hVat, hh, hlast⟩ := pyLower_email_decomp hstrict
    exact ⟨U, V, by rw [pyStrip_eq_self hh hlast, hLV], hUat, hVat⟩
  · cases hg : s.getLast? with
    | none => rw [hg] at hnl; cases hnl
    | some c =>
        rw [hg] at hnl
        simp only [Bool.and_eq_true, decide_eq_true_eq] at hnl
        obtain ⟨hcn, hstrict⟩ := hnl
        subst hcn
        have hs0 : s ≠ [] := by
          intro hn
          rw [hn] at hg
          cases hg
        have hsplit : s = s.dropLast ++ ['\n'] := by
          have := List.dropLast_append_getLast hs0
          rw [List.getLast?_eq_getLast s hs0] at hg
          have hgl : s.getLast hs0 = '\n' := Option.some.inj hg
          rw [hgl] at this
          exact this.symm
        obtain ⟨U, V, hLV, hU0, hUat, hVat, hh, hlast⟩ := pyLower_email_decomp hstrict
        refine ⟨U, V, ?_, hUat, hVat⟩
        have hmapnl : pyLower s = pyLower s.dropLast ++ ['\n'] := by
          conv_lhs => rw [hsplit]
          unfold pyLower
          rw [List.map_append]
          rfl
        rw [hmapnl,
            pyStrip_append_newline (by rw [hLV]; simp) hh hlast, hLV]

theorem email_accessors_split {W U V : Str} (hW : W = U ++ '@' :: V)
    (hU : ¬('@' ∈ U)) (hV : ¬('@' ∈ V)) :
    Email.local_part ⟨W⟩ = U ∧ Email.domain ⟨W⟩ = V := by
  have hUp : ∀ c ∈ U, (fun c => !(c = '@' : Bool)) c = true := by
    intro c hc
    simp only [Bool.not_eq_true', decide_eq_false_iff_not]
    exact fun he => hU (he ▸ hc)
  have hVp : ∀ c ∈ V, (fun c => !(c = '@' : Bool)) c = true := by
    intro c hc
    simp only [Bool.not_eq_true', decide_eq_false_iff_not]
    exact fun he => hV (he ▸ hc)
  have hAt : (fun c => !(c = '@' : Bool)) '@' = false := by decide
  have hsplit := takeWhile_append_all U V hUp hAt
  constructor
  · unfold Email.local_part
    simp only [hW]
    exact hsplit.1
  · unfold Email.domain
    simp only [hW]
    rw [hsplit.2]
    simp only [List.drop_one, List.tail_cons]
    exact takeWhile_eq_self_of_all hVp

/-- C8 -/
theorem C8_email_format_and_accessors (s : Str) :
    (Email.mk? s = none ↔ emailRegexMatch s = false) ∧
    (∀ e, Email.mk? s = some e →
      e.value = pyStrip (pyLower s) ∧
      e.value = e.local_part ++ '@' :: e.domain ∧
      ¬('@' ∈ e.local_part) ∧ ¬('@' ∈ e.domain)) := by
  constructor
  · unfold Email.mk?
    cases hm : emailRegexMatch s <;> simp
  · intro e he
    unfold Email.mk? at he
    cases hm : emailRegexMatch s with
    | false => rw [hm] at he; cases he
    | true =>
        rw [hm, if_pos rfl] at he
        have hev : e = ⟨pyStrip (pyLower s)⟩ := (Option.some.inj he).symm
        obtain ⟨U, V, hW, hU, hV⟩ := email_value_decomp hm
        have hacc := email_accessors_split hW hU hV
        subst hev
        refine ⟨rfl, ?_, ?_, ?_⟩
        · show pyStrip (pyLower s) = _
          rw [hacc.1, hacc.2, hW]
        · rw [hacc.1]
          exact hU
        · rw [hacc.2]
          exact hV

/-- C8 witness -/
theorem C8_email_format_and_accessors_witness :
    Email.mk? ("User.Name@Example.COM").data = some ⟨("user.name@example.com").data⟩ ∧
    (⟨("user.name@example.com").data⟩ : Email).value =
      pyStrip (pyLower ("User.Name@Example.COM").data) ∧
    (⟨("user.name@example.com").data⟩ : Email).value =
      (⟨("user.name@example.com").data⟩ : Email).local_part ++ '@' ::
        (⟨("user.name@example.com").data⟩ : Email).domain ∧
    Email.mk? ("no-at-sign.example.com").data = none :=
  ⟨by decide,
   ((C8_email_format_and_accessors ("User.Name@Example.COM").data).2
      ⟨("user.name@example.com").data⟩ (by decide)).1,
   ((C8_email_format_and_accessors ("User.Name@Example.COM").data).2
      ⟨("user.name@example.com").data⟩ (by decide)).2.1,
   (C8_email_format_and_accessors ("no-at-sign.example.com").data).1.2 (by decide)⟩

/-- C9 -/
theorem C9_otp_construction_and_mask (s : Str) :
    ((OTPCode.mk? s).isSome =
      (decide ((pyStrip s).length = 6) && (pyStrip s).all isAsciiDigit)) ∧
    (∀ o, OTPCode.mk? s = some o → OTPCode.str o = ("******").data) := by
  constructor
  · have hreg : otpRegexMatch (pyStrip s) = otpStrict (pyStrip s) := by
      unfold otpRegexMatch
      cases hg : (pyStrip s).getLast? with
      | none => simp
      | some c =>
          have hcw : pyWs c = false := pyStrip_getLast_not_ws s c hg
          have hcn : ¬(c = '\n') := by
            intro he
            subst he
            exact absurd hcw (by decide)
          simp [hcn]
    unfold OTPCode.mk?
    rw [hreg]
    cases hb : otpStrict (pyStrip s) with
    | true => simp [hb, otpStrict] at *; exact hb
    | false => simp [hb, otpStrict] at *; exact hb
  · intro o ho
    rfl

/-- C9 witness -/
theorem C9_otp_construction_and_mask_witness :
    OTPCode.mk? (" 123456 ").data = some ⟨("123456").data⟩ ∧
    OTPCode.str ⟨("123456").data⟩ = ("******").data ∧
    (OTPCode.mk? ("12345").data).isSome =
      (decide ((pyStrip ("12345").data).length = 6) &&
        (pyStrip ("12345").data).all isAsciiDigit) :=
  ⟨by decide,
   (C9_otp_construction_and_mask (" 123456 ").data).2 ⟨("123456").data⟩ (by decide),
   (C9_otp_construction_and_mask ("12345").data).1⟩
